import Mathlib

/-!
Verification of the trading-client state synchronization core

Shallow embedding of `src/tradingClient.js` (class `TradingClient`).

Modelling conventions:
* A JavaScript `Map` is an association list `List (String × α)` with
  `mapSet` / `mapLookup` mirroring `Map.set` / `Map.get`.
* A JavaScript object that may carry or omit properties (order and balance
  records, push payloads) is a structure whose optional properties have type
  `Option _`; `none` means the property is absent (`undefined`).  Object
  spread `{...old, ...data}` is the right-biased merge `spreadOrder` /
  `spreadBalance`.
* Async chain/transport calls (`fetch`, contract calls, `tx.wait`) are
  abstracted into explicit outcome parameters (`FetchOutcome`, `TxResult`,
  `SubmitResult`): the function is given what the external world returned.
* Decimal amount strings produced by `ethers.utils.formatUnits` are computed
  by `formatUnits`; balance amounts are modelled by the exact rational value
  the decimal string denotes (the spec's Numeric Normalizer mandates exact
  decimal arithmetic).
* A thrown `Error(msg)` is `Except.error msg`; a JS function that can throw
  returns `ClientState × Except String α` so that the state on the failure
  path is explicit.  `undefined` returned on an unhandled network branch is
  `Option.none` in the result.
-/

/-- JS `Map.get`: first value stored under key `k`, if any. -/
def mapLookup {α : Type} : List (String × α) → String → Option α
  | [], _ => none
  | (k2, v) :: rest, k => if k2 = k then some v else mapLookup rest k

/-- JS `Map.set`: replace the value under key `k`, or append a fresh entry. -/
def mapSet {α : Type} : List (String × α) → String → α → List (String × α)
  | [], k, v => [(k, v)]
  | (k2, v2) :: rest, k, v =>
      if k2 = k then (k, v) :: rest else (k2, v2) :: mapSet rest k v

/-- JS `Array.from(map.values())`. -/
def mapValues {α : Type} (m : List (String × α)) : List α :=
  m.map (fun kv => kv.2)

/-- Drop trailing `'0'` characters. -/
def trimRightZeros (l : List Char) : List Char :=
  (l.reverse.dropWhile (fun c => c = '0')).reverse

/-- Left-pad a digit string with zeros to length `d`. -/
def padLeftZeros (s : String) (d : Nat) : String :=
  String.mk (List.replicate (d - s.length) '0') ++ s

/-- Model of `ethers.utils.formatUnits(v, d)` for a non-negative raw integer:
decimal string with the fraction's trailing zeros trimmed, keeping at least
one fractional digit. -/
def formatUnits (v d : Nat) : String :=
  let ip := v / 10 ^ d
  let fracRaw := padLeftZeros (toString (v % 10 ^ d)) d
  let frac := trimRightZeros fracRaw.data
  toString ip ++ "." ++ (if frac.isEmpty then "0" else String.mk frac)

/-- Model of `ethers.utils.formatUnits` on a possibly negative raw integer. -/
def formatUnitsInt (v : Int) (d : Nat) : String :=
  if v < 0 then "-" ++ formatUnits v.natAbs d else formatUnits v.toNat d

/-- Market record: `symbol` is the map key, `address` is read by
`createOrder` when building the chain request. -/
structure Market where
  symbol : String
  address : String
deriving DecidableEq, Repr

/-- Order record / `order_update` push payload.  `id` is always present
(it is the map key); every other property may be absent, as in a partial
push payload.  `sequence` is an optional sequence marker a payload may
carry; the source never reads it, the spread merge copies it like any other
property. -/
structure Order where
  id : String
  market : Option String := none
  side : Option String := none
  type : Option String := none
  price : Option String := none
  amount : Option String := none
  filled : Option String := none
  status : Option String := none
  timestamp : Option Nat := none
  txHash : Option String := none
  sequence : Option Nat := none
deriving DecidableEq, Repr

/-- Balance record / `balance_update` push payload, keyed by `token`.
Amount properties hold the exact rational value of the decimal string. -/
structure Balance where
  token : String
  free : Option ℚ := none
  locked : Option ℚ := none
  total : Option ℚ := none
deriving DecidableEq, Repr

/-- Whether a balance record satisfies the `total == free + locked`
equation (with all three properties present). -/
def balanceEquationHolds (b : Balance) : Bool :=
  match b.free, b.locked, b.total with
  | some f, some l, some t => decide (t = f + l)
  | _, _, _ => false

/-- Position record as decoded by `fetchPositions`. -/
structure Position where
  id : String
  market : String
  side : String
  size : String
  leverage : ℚ
  entryPrice : String
  liquidationPrice : String
  margin : String
  pnl : String
  pnlPercentage : ℚ
deriving DecidableEq, Repr

/-- Object spread `{...old, ...data}` on order records: properties present
in `data` win, absent ones are kept from `old`. -/
def spreadOrder (old data : Order) : Order :=
  { id := data.id
    market := data.market <|> old.market
    side := data.side <|> old.side
    type := data.type <|> old.type
    price := data.price <|> old.price
    amount := data.amount <|> old.amount
    filled := data.filled <|> old.filled
    status := data.status <|> old.status
    timestamp := data.timestamp <|> old.timestamp
    txHash := data.txHash <|> old.txHash
    sequence := data.sequence <|> old.sequence }

/-- Object spread `{...old, ...data}` on balance records. -/
def spreadBalance (old data : Balance) : Balance :=
  { token := data.token
    free := data.free <|> old.free
    locked := data.locked <|> old.locked
    total := data.total <|> old.total }

/-- Method `updateOrder(orderData)`:
`this.orders.set(orderData.id, {...this.orders.get(orderData.id), ...orderData})`.
When the key is absent, `this.orders.get` is `undefined` and the spread
yields the payload alone. -/
def updateOrder (orders : List (String × Order)) (data : Order) :
    List (String × Order) :=
  match mapLookup orders data.id with
  | some old => mapSet orders data.id (spreadOrder old data)
  | none => mapSet orders data.id data

/-- Method `updateBalance(balanceData)`:
`this.balances.set(balanceData.token, {...this.balances.get(balanceData.token), ...balanceData})`. -/
def updateBalance (balances : List (String × Balance)) (data : Balance) :
    List (String × Balance) :=
  match mapLookup balances data.token with
  | some old => mapSet balances data.token (spreadBalance old data)
  | none => mapSet balances data.token data

/-- Method `getOrderTypeId(typeName)`: looks `typeName` up in
`{market:0, limit:1, stop:2, stopLimit:3, trailingStop:4}` and returns
`typeMap[typeName] || 1`.  JavaScript `||` treats the number `0` as falsy,
so a looked-up `0` is replaced by the default `1`, exactly like a missing
entry. -/
def getOrderTypeId (typeName : String) : Nat :=
  let looked : Option Nat :=
    if typeName = "market" then some 0
    else if typeName = "limit" then some 1
    else if typeName = "stop" then some 2
    else if typeName = "stopLimit" then some 3
    else if typeName = "trailingStop" then some 4
    else none
  match looked with
  | some v => if v = 0 then 1 else v
  | none => 1

/-- Method `getOrderTypeName(typeId)`: index into
`['market','limit','stop','stopLimit','trailingStop']`; any out-of-range
index reads `undefined` and falls back to `'unknown'`. -/
def getOrderTypeName (typeId : Int) : String :=
  if typeId = 0 then "market"
  else if typeId = 1 then "limit"
  else if typeId = 2 then "stop"
  else if typeId = 3 then "stopLimit"
  else if typeId = 4 then "trailingStop"
  else "unknown"

/-- Method `getOrderStatusName(statusId)`: index into
`['open','filled','canceled','expired','rejected']` with `'unknown'`
fallback. -/
def getOrderStatusName (statusId : Int) : String :=
  if statusId = 0 then "open"
  else if statusId = 1 then "filled"
  else if statusId = 2 then "canceled"
  else if statusId = 3 then "expired"
  else if statusId = 4 then "rejected"
  else "unknown"

/-- JS `Math.round`: round half toward positive infinity. -/
def jsRound (x : ℚ) : ℤ :=
  Int.floor (x + 1 / 2)

/-- Leverage decode in `fetchPositions`: `position.leverage / 100`
(basis points to canonical leverage). -/
def decodePositionLeverage (bp : Nat) : ℚ :=
  (bp : ℚ) / 100

/-- Leverage encode, `Math.round(leverage * 100)`, as computed for
`orderParams.leverage` in `createOrder` and for the chain call in
`updatePositionLeverage`. -/
def leverageToBp (l : ℚ) : ℤ :=
  jsRound (l * 100)

/-- EVM-network test `['ethereum','arbitrum','optimism','bnb'].includes(network)`. -/
def isEvmNetwork (network : String) : Bool :=
  network = "ethereum" || network = "arbitrum" || network = "optimism" ||
    network = "bnb"

/-- The mutable state of a `TradingClient`: the configured network, the
bound wallet (its address when present), and the four in-memory maps. -/
structure ClientState where
  network : String
  wallet : Option String
  markets : List (String × Market)
  balances : List (String × Balance)
  positions : List (String × Position)
  orders : List (String × Order)
deriving DecidableEq, Repr

/-- Outcome of an awaited transport or contract read: the decoded payload,
or the error whose message the surrounding `catch` sees. -/
inductive FetchOutcome (α : Type) where
  | success (data : List α)
  | failure (msg : String)
deriving DecidableEq, Repr

/-- Outcome of an awaited state-changing transaction (`tx.wait()`). -/
inductive TxResult where
  | success (txHash : String)
  | failure (msg : String)
deriving DecidableEq, Repr

/-- Outcome of `exchangeContract.createOrder` + `tx.wait()` + receipt-log
scan: on success, the transaction hash and the order id extracted from the
`OrderCreated` event (`none` when no such event was found in the logs). -/
inductive SubmitResult where
  | txSuccess (txHash : String) (extractedId : Option String)
  | txFailure (msg : String)
deriving DecidableEq, Repr

/-- Raw balance as returned by `vaultContract.getBalance` (18-decimal
fixed-point integers). -/
structure RawBalance where
  token : String
  free : Nat
  locked : Nat
  total : Nat
deriving DecidableEq, Repr

/-- Balance decode in `fetchBalances`: each amount is
`formatUnits(raw, 18)`, modelled by the rational the string denotes. -/
def decodeBalance (r : RawBalance) : Balance :=
  { token := r.token
    free := some ((r.free : ℚ) / 10 ^ 18)
    locked := some ((r.locked : ℚ) / 10 ^ 18)
    total := some ((r.total : ℚ) / 10 ^ 18) }

/-- Raw position as returned by `marginContract.getUserPositions`. -/
structure RawPosition where
  id : String
  market : String
  side : Nat
  size : Nat
  leverage : Nat
  entryPrice : Nat
  liquidationPrice : Nat
  margin : Nat
  unrealizedPnl : Int
  unrealizedPnlPercentage : Int
deriving DecidableEq, Repr

/-- Position decode in `fetchPositions`. -/
def decodePosition (r : RawPosition) : Position :=
  { id := r.id
    market := r.market
    side := if r.side = 0 then "long" else "short"
    size := formatUnits r.size 18
    leverage := decodePositionLeverage r.leverage
    entryPrice := formatUnits r.entryPrice 8
    liquidationPrice := formatUnits r.liquidationPrice 8
    margin := formatUnits r.margin 18
    pnl := formatUnitsInt r.unrealizedPnl 18
    pnlPercentage := (r.unrealizedPnlPercentage : ℚ) / 100 }

/-- Raw order as returned by `exchangeContract.getUserOrders`. -/
structure RawOrder where
  id : String
  market : String
  side : Nat
  orderType : Int
  price : Nat
  amount : Nat
  filled : Nat
  status : Int
  timestamp : Nat
deriving DecidableEq, Repr

/-- Order decode in `fetchOpenOrders`. -/
def decodeOrder (r : RawOrder) : Order :=
  { id := r.id
    market := some r.market
    side := some (if r.side = 0 then "buy" else "sell")
    type := some (getOrderTypeName r.orderType)
    price := some (formatUnits r.price 8)
    amount := some (formatUnits r.amount 18)
    filled := some (formatUnits r.filled 18)
    status := some (getOrderStatusName r.status)
    timestamp := some (r.timestamp * 1000)
    txHash := none
    sequence := none }

/-- Method `fetchMarkets()`: fetch the market list, `set` each under its symbol,
return all stored markets; any caught error degrades to `[]`. -/
def fetchMarkets (s : ClientState) (r : FetchOutcome Market) :
    ClientState × List Market :=
  match r with
  | .failure _ => (s, [])
  | .success ms =>
      let markets2 := ms.foldl (fun acc m => mapSet acc m.symbol m) s.markets
      ({ s with markets := markets2 }, mapValues markets2)

/-- Method `fetchBalances()`: `[]` with no wallet bound; on the EVM branch decode
and `set` each returned balance; the non-EVM branch is a stub, so current
values are returned; any caught error degrades to `[]`. -/
def fetchBalances (s : ClientState) (r : FetchOutcome RawBalance) :
    ClientState × List Balance :=
  if s.wallet.isNone then (s, [])
  else if isEvmNetwork s.network then
    match r with
    | .failure _ => (s, [])
    | .success raws =>
        let balances2 :=
          raws.foldl (fun acc rb => mapSet acc rb.token (decodeBalance rb))
            s.balances
        ({ s with balances := balances2 }, mapValues balances2)
  else (s, mapValues s.balances)

/-- Method `fetchPositions()`: same shape as `fetchBalances`. -/
def fetchPositions (s : ClientState) (r : FetchOutcome RawPosition) :
    ClientState × List Position :=
  if s.wallet.isNone then (s, [])
  else if isEvmNetwork s.network then
    match r with
    | .failure _ => (s, [])
    | .success raws =>
        let positions2 :=
          raws.foldl (fun acc rp => mapSet acc rp.id (decodePosition rp))
            s.positions
        ({ s with positions := positions2 }, mapValues positions2)
  else (s, mapValues s.positions)

/-- Method `fetchOpenOrders()`: same shape as `fetchBalances`. -/
def fetchOpenOrders (s : ClientState) (r : FetchOutcome RawOrder) :
    ClientState × List Order :=
  if s.wallet.isNone then (s, [])
  else if isEvmNetwork s.network then
    match r with
    | .failure _ => (s, [])
    | .success raws =>
        let orders2 :=
          raws.foldl (fun acc ro => mapSet acc ro.id (decodeOrder ro))
            s.orders
        ({ s with orders := orders2 }, mapValues orders2)
  else (s, mapValues s.orders)

/-- Request parameters of `createOrder` (defaults as destructured in the
source: `leverage = 1`, `reduceOnly = false`, `timeInForce = 'GTC'`,
`clientOrderId = Date.now().toString()` supplied by the caller here). -/
structure OrderParams where
  market : String
  side : String
  type : String
  price : String
  amount : String
  leverage : ℚ := 1
  reduceOnly : Bool := false
  timeInForce : String := "GTC"
  stopPrice : Option String := none
  clientOrderId : String
deriving DecidableEq, Repr

/-- Method `createOrder(params)`.  Throws `'Wallet not connected'` with no wallet.
On the EVM branch: a missing market throws inside the `try`, so the `catch`
re-throws it wrapped as `'Failed to create order: Market <m> not found'`;
the chain request (including `leverage: leverageToBp params.leverage` and
`orderType: getOrderTypeId params.type`) is then submitted — its awaited
outcome is the `SubmitResult` argument, a failure being re-thrown wrapped;
on success the order id is the extracted event id or `'pending'`, and the
new record `{status:'open', filled:'0', timestamp: now, txHash}` is `set`
under that id.  The non-EVM branch returns a record without touching the
map; an unhandled network returns `undefined` (`none`). -/
def createOrder (s : ClientState) (p : OrderParams) (r : SubmitResult)
    (now : Nat) : ClientState × Except String (Option Order) :=
  if s.wallet.isNone then (s, .error "Wallet not connected")
  else if isEvmNetwork s.network then
    match mapLookup s.markets p.market with
    | none =>
        (s, .error ("Failed to create order: Market " ++ p.market ++
          " not found"))
    | some _ =>
        match r with
        | .txFailure msg => (s, .error ("Failed to create order: " ++ msg))
        | .txSuccess txh extracted =>
            let orderId := extracted.getD "pending"
            let newOrder : Order :=
              { id := orderId
                market := some p.market
                side := some p.side
                type := some p.type
                price := some p.price
                amount := some p.amount
                filled := some "0"
                status := some "open"
                timestamp := some now
                txHash := some txh
                sequence := none }
            ({ s with orders := mapSet s.orders orderId newOrder },
              .ok (some newOrder))
  else if s.network = "solana" then
    (s, .ok (some
      { id := "solana-" ++ toString now
        market := some p.market
        side := some p.side
        type := some p.type
        price := some p.price
        amount := some p.amount
        status := some "open" }))
  else (s, .ok none)

/-- Result object returned by `cancelOrder` (`txHash` only on the EVM
branch). -/
structure CancelResult where
  success : Bool
  orderId : String
  txHash : Option String := none
deriving DecidableEq, Repr

/-- Method `cancelOrder(orderId)`.  Throws `'Wallet not connected'` with no
wallet.  On the EVM branch the chain cancel is always attempted; a failure
is re-thrown wrapped as `'Failed to cancel order: <msg>'`; on success, only
an order already in the map gets its `status` set to `'canceled'` — an
absent id leaves the map untouched.  The non-EVM branch returns success
without a transaction; an unhandled network returns `undefined`. -/
def cancelOrder (s : ClientState) (orderId : String) (r : TxResult) :
    ClientState × Except String (Option CancelResult) :=
  if s.wallet.isNone then (s, .error "Wallet not connected")
  else if isEvmNetwork s.network then
    match r with
    | .failure msg => (s, .error ("Failed to cancel order: " ++ msg))
    | .success txh =>
        let orders2 :=
          match mapLookup s.orders orderId with
          | some od => mapSet s.orders orderId { od with status := some "canceled" }
          | none => s.orders
        ({ s with orders := orders2 },
          .ok (some { success := true, orderId := orderId, txHash := some txh }))
  else if s.network = "solana" then
    (s, .ok (some { success := true, orderId := orderId }))
  else (s, .ok none)

/-- Looking up the key just written returns the written value. -/
theorem mapLookup_set_self {α : Type} (m : List (String × α)) (k : String)
    (v : α) : mapLookup (mapSet m k v) k = some v := by
  induction m with
  | nil => simp [mapSet, mapLookup]
  | cons hd tl ih =>
      obtain ⟨k2, v2⟩ := hd
      by_cases h : k2 = k
      · simp [mapSet, h, mapLookup]
      · simp [mapSet, h, mapLookup, ih]

/-- Writing one key does not affect lookups of a different key. -/
theorem mapLookup_set_ne {α : Type} (m : List (String × α)) (k k2 : String)
    (v : α) (h : k2 ≠ k) :
    mapLookup (mapSet m k v) k2 = mapLookup m k2 := by
  have h2 : ¬k = k2 := fun hh => h hh.symm
  induction m with
  | nil => simp [mapSet, mapLookup, h2]
  | cons hd tl ih =>
      obtain ⟨ka, va⟩ := hd
      by_cases hk : ka = k
      · subst hk
        simp [mapSet, mapLookup, h2]
      · simp [mapSet, hk, mapLookup, ih]

/-- Claim C4.  The order-type round-trip fails on the name `market`: the
source computes `typeMap[typeName] || 1`, and since `typeMap['market']` is
the falsy number `0`, `getOrderTypeId('market')` returns `1`, so decoding
gives `limit`, not `market` — contradicting the code's own table entry
`'market': 0`.  (The other direction of the claim, ids outside 0–4 decoding
to `unknown`, does hold.) -/
theorem orderType_market_roundtrip_bug :
    getOrderTypeName (getOrderTypeId "market") = "limit" ∧
    getOrderTypeId "market" = 1 ∧
    getOrderTypeName 7 = "unknown" ∧ getOrderTypeName (-1) = "unknown" := by
  decide

/-- Claim C9.  Leverage conversion round-trips: decoding a basis-point
value with `decodePositionLeverage` (the `position.leverage / 100` of
`fetchPositions`) and re-encoding it with `leverageToBp` (the
`Math.round(leverage * 100)` of `createOrder` / `updatePositionLeverage`)
yields the original value, for every natural basis-point value, in the
exact decimal arithmetic the spec's Numeric Normalizer prescribes. -/
theorem leverage_bp_roundtrip (bp : Nat) :
    leverageToBp (decodePositionLeverage bp) = bp := by
  unfold leverageToBp decodePositionLeverage jsRound
  have h1 : (bp : ℚ) / 100 * 100 = (bp : ℚ) := by
    field_simp
  rw [h1]
  rw [Int.floor_eq_iff]
  constructor
  · push_cast
    linarith
  · push_cast
    linarith

/-- Claim C1 is false on the code: `updateOrder` performs no sequence
comparison.  Concretely, after a push update with sequence 5 sets
status `filled` / filled `1.5` on order `42`, a later-arriving stale
duplicate with sequence 3 is applied anyway and the stored order changes:
its status becomes `open` again (and its filled drops to `0.5`). -/
theorem stale_push_overwrites_cex :
    (mapLookup
      (updateOrder
        (updateOrder
          [("42", { id := "42", status := some "open", filled := some "0",
                    sequence := some 1 })]
          { id := "42", status := some "filled", filled := some "1.5",
            sequence := some 5 })
        { id := "42", status := some "open", filled := some "0.5",
          sequence := some 3 }) "42").map
      (fun o => (o.status, o.filled, o.sequence)) =
      some (some "open", some "0.5", some 3) := by
  decide

/-- Claim C1 (amended).  `updateOrder` applies every patch unconditionally
as a spread merge keyed by the patch's id: even when the patch carries a
sequence marker strictly older than the stored one, the merge is applied
and the fields the patch carries overwrite the stored ones — no patch is
rejected as stale. -/
theorem updateOrder_ignores_sequence
    (orders : List (String × Order)) (old data : Order) (so sd : Nat)
    (hold : mapLookup orders data.id = some old)
    (_hso : old.sequence = some so) (_hsd : data.sequence = some sd)
    (_hstale : sd < so) :
    mapLookup (updateOrder orders data) data.id =
      some (spreadOrder old data) := by
  simp [updateOrder, hold, mapLookup_set_self]

/-- Witness for `updateOrder_ignores_sequence` at a concrete stale patch
(stored sequence 5, patch sequence 3). -/
theorem updateOrder_ignores_sequence_witness :
    mapLookup
      (updateOrder
        [("9", { id := "9", status := some "filled", sequence := some 5 })]
        { id := "9", status := some "open", sequence := some 3 }) "9" =
      some (spreadOrder
        { id := "9", status := some "filled", sequence := some 5 }
        { id := "9", status := some "open", sequence := some 3 }) :=
  updateOrder_ignores_sequence _ _ _ 5 3 (by decide) (by decide) (by decide)
    (by decide)

/-- Claim C2 is false on the code: `updateOrder` enforces no invariant.
Concretely, a patch on an order whose stored status is the terminal
`filled` (filled `1.5` of amount `1.5`) is applied verbatim: the status
regresses to `open` and `filled` drops from `1.5` to `0.2`. -/
theorem terminal_status_regresses_cex :
    (mapLookup
      (updateOrder
        [("7", { id := "7", status := some "filled", filled := some "1.5",
                 amount := some "1.5" })]
        { id := "7", status := some "open", filled := some "0.2" })
      "7").map (fun o => (o.status, o.filled, o.amount)) =
      some (some "open", some "0.2", some "1.5") := by
  decide

/-- Claim C2 (amended).  An accepted `order_update` sets `filled` and
`status` verbatim from the patch whenever the patch carries them; the
store enforces neither monotonicity of `filled`, nor `filled ≤ amount`,
nor terminality of status, so a patch may decrease `filled` and move a
terminal status back to `open`. -/
theorem updateOrder_fields_verbatim
    (orders : List (String × Order)) (old data : Order) (f st : String)
    (hold : mapLookup orders data.id = some old)
    (hf : data.filled = some f) (hst : data.status = some st) :
    (mapLookup (updateOrder orders data) data.id).map
      (fun o => (o.filled, o.status)) = some (some f, some st) := by
  simp [updateOrder, hold, mapLookup_set_self, spreadOrder, hf, hst]

/-- Witness for `updateOrder_fields_verbatim`: a concrete patch that
decreases `filled` and regresses a terminal status. -/
theorem updateOrder_fields_verbatim_witness :
    (mapLookup
      (updateOrder
        [("8", { id := "8", status := some "filled", filled := some "1.5" })]
        { id := "8", status := some "open", filled := some "0.2" })
      "8").map (fun o => (o.filled, o.status)) =
      some (some "0.2", some "open") :=
  updateOrder_fields_verbatim
    [("8", { id := "8", status := some "filled", filled := some "1.5" })]
    { id := "8", status := some "filled", filled := some "1.5" }
    { id := "8", status := some "open", filled := some "0.2" }
    "0.2" "open" (by decide) (by decide) (by decide)

/-- Claim C3 is false on the code: `updateBalance` does a field-wise spread
merge with no consistency check.  Concretely, merging the partial push
payload `{token:'USDC', free:5}` over the stored balance
`{free:1, locked:2, total:3}` yields `{free:5, locked:2, total:3}`, and
`3 ≠ 5 + 2`. -/
theorem balance_equation_broken_cex :
    mapLookup
      (updateBalance
        [("USDC", { token := "USDC", free := some 1, locked := some 2,
                    total := some 3 })]
        { token := "USDC", free := some 5 }) "USDC" =
      some { token := "USDC", free := some 5, locked := some 2,
             total := some 3 } ∧
    balanceEquationHolds
      { token := "USDC", free := some 5, locked := some 2,
        total := some 3 } = false := by
  refine ⟨rfl, ?_⟩
  norm_num [balanceEquationHolds]

/-- Claim C3 (amended).  `updateBalance` stores the spread merge of the old
record and the patch without enforcing `total == free + locked`; the
equation holds after a mutation only if the incoming fields happen to
satisfy it — a partial patch that changes `free` but not `total` breaks
it. -/
theorem updateBalance_spread_merge
    (balances : List (String × Balance)) (old data : Balance)
    (hold : mapLookup balances data.token = some old) :
    mapLookup (updateBalance balances data) data.token =
      some (spreadBalance old data) := by
  simp [updateBalance, hold, mapLookup_set_self]

/-- Witness for `updateBalance_spread_merge` at the concrete partial patch
of the counterexample. -/
theorem updateBalance_spread_merge_witness :
    mapLookup
      (updateBalance
        [("DAI", { token := "DAI", free := some 1, locked := some 2,
                   total := some 3 })]
        { token := "DAI", free := some 5 }) "DAI" =
      some (spreadBalance
        { token := "DAI", free := some 1, locked := some 2, total := some 3 }
        { token := "DAI", free := some 5 }) :=
  updateBalance_spread_merge
    [("DAI", { token := "DAI", free := some 1, locked := some 2,
               total := some 3 })]
    { token := "DAI", free := some 1, locked := some 2, total := some 3 }
    { token := "DAI", free := some 5 } rfl

/-- A concrete EVM-network client state with a bound wallet and the
`ETH-USDC` market loaded (Scenario B's starting point). -/
def scenarioState : ClientState :=
  { network := "arbitrum"
    wallet := some "0xuser"
    markets := [("ETH-USDC", { symbol := "ETH-USDC", address := "0xmkt" })]
    balances := []
    positions := []
    orders := [] }

/-- The concrete `createOrder` request of Scenario B (the defaulted
properties spelled out, `clientOrderId` the generated timestamp string). -/
def scenarioParams : OrderParams :=
  { market := "ETH-USDC"
    side := "buy"
    type := "limit"
    price := "1720.50"
    amount := "1.5"
    clientOrderId := "1700000000000" }

/-- Claim C5.  When `createOrder` runs with a wallet bound, on an EVM
network, with the requested market present, and the confirmed
transaction's event extraction yields order id `42`, the resulting orders
map holds under key `42` exactly the new record with status `open` and
filled `0`, and holds nothing under the request's `clientOrderId` (the
source never writes an optimistic record under that key); the call also
returns that record. -/
theorem createOrder_success_authoritative_key
    (s : ClientState) (p : OrderParams) (mkt : Market) (txh : String)
    (now : Nat)
    (hw : s.wallet.isNone = false)
    (he : isEvmNetwork s.network = true)
    (hm : mapLookup s.markets p.market = some mkt)
    (hcid : mapLookup s.orders p.clientOrderId = none)
    (hne : p.clientOrderId ≠ "42") :
    mapLookup (createOrder s p (.txSuccess txh (some "42")) now).1.orders
        "42" =
      some { id := "42", market := some p.market, side := some p.side,
             type := some p.type, price := some p.price,
             amount := some p.amount, filled := some "0",
             status := some "open", timestamp := some now,
             txHash := some txh, sequence := none } ∧
    mapLookup (createOrder s p (.txSuccess txh (some "42")) now).1.orders
        p.clientOrderId = none ∧
    (createOrder s p (.txSuccess txh (some "42")) now).2 =
      .ok (some { id := "42", market := some p.market, side := some p.side,
                  type := some p.type, price := some p.price,
                  amount := some p.amount, filled := some "0",
                  status := some "open", timestamp := some now,
                  txHash := some txh, sequence := none }) := by
  refine ⟨?_, ?_, ?_⟩ <;>
    simp [createOrder, hw, he, hm, mapLookup_set_self,
      mapLookup_set_ne _ _ _ _ hne, hcid]

/-- Witness for `createOrder_success_authoritative_key` at Scenario B's
concrete state and request. -/
theorem createOrder_success_authoritative_key_witness :
    mapLookup
        (createOrder scenarioState scenarioParams
          (.txSuccess "0xabc" (some "42")) 1700000000001).1.orders "42" =
      some { id := "42", market := some "ETH-USDC", side := some "buy",
             type := some "limit", price := some "1720.50",
             amount := some "1.5", filled := some "0",
             status := some "open", timestamp := some 1700000000001,
             txHash := some "0xabc", sequence := none } ∧
    mapLookup
        (createOrder scenarioState scenarioParams
          (.txSuccess "0xabc" (some "42")) 1700000000001).1.orders
        "1700000000000" = none ∧
    (createOrder scenarioState scenarioParams
        (.txSuccess "0xabc" (some "42")) 1700000000001).2 =
      .ok (some { id := "42", market := some "ETH-USDC", side := some "buy",
                  type := some "limit", price := some "1720.50",
                  amount := some "1.5", filled := some "0",
                  status := some "open", timestamp := some 1700000000001,
                  txHash := some "0xabc", sequence := none }) :=
  createOrder_success_authoritative_key scenarioState scenarioParams
    { symbol := "ETH-USDC", address := "0xmkt" } "0xabc" 1700000000001
    (by decide) (by decide) (by decide) (by decide) (by decide)

/-- Claim C7.  `createOrder` fails with the wallet error when no wallet is
bound, and — on the EVM path, the only one that validates markets — fails
with the market error when the requested symbol is absent from the local
markets map; in both cases the state (hence the orders map) is returned
unchanged.  The two failures are distinct error values. -/
theorem createOrder_failure_modes
    (s : ClientState) (p : OrderParams) (r : SubmitResult) (now : Nat) :
    (s.wallet = none →
      createOrder s p r now = (s, .error "Wallet not connected")) ∧
    (s.wallet.isSome = true → isEvmNetwork s.network = true →
      mapLookup s.markets p.market = none →
      createOrder s p r now =
        (s, .error ("Failed to create order: Market " ++ p.market ++
          " not found"))) := by
  constructor
  · intro h
    simp [createOrder, h]
  · intro hw he hm
    obtain ⟨w, hwv⟩ := Option.isSome_iff_exists.mp hw
    simp [createOrder, hwv, he, hm]

/-- Witness for `createOrder_failure_modes`: a wallet-less client and a
client without the requested market, both at Scenario B's request. -/
theorem createOrder_failure_modes_witness :
    createOrder { scenarioState with wallet := none } scenarioParams
        (.txSuccess "0xabc" (some "42")) 0 =
      ({ scenarioState with wallet := none },
        .error "Wallet not connected") ∧
    createOrder { scenarioState with markets := [] } scenarioParams
        (.txSuccess "0xabc" (some "42")) 0 =
      ({ scenarioState with markets := [] },
        .error "Failed to create order: Market ETH-USDC not found") :=
  ⟨(createOrder_failure_modes { scenarioState with wallet := none }
      scenarioParams (.txSuccess "0xabc" (some "42")) 0).1 rfl,
    (createOrder_failure_modes { scenarioState with markets := [] }
      scenarioParams (.txSuccess "0xabc" (some "42")) 0).2 (by decide)
      (by decide) (by decide)⟩

/-- Claim C6 is false on the code: `cancelOrder` on an id absent from the
local map does attempt (and here succeed at) the chain cancel, but inserts
no record — after a successful cancel of the unknown id `99` the orders
map still has no entry for `99`. -/
theorem cancelOrder_absent_no_record_cex :
    (cancelOrder scenarioState "99" (.success "0xh")).2 =
      .ok (some { success := true, orderId := "99",
                  txHash := some "0xh" }) ∧
    mapLookup (cancelOrder scenarioState "99" (.success "0xh")).1.orders
      "99" = none := by
  constructor <;> rfl

/-- Claim C6 (amended).  For an order id absent from the local orders map,
`cancelOrder` still performs the chain cancel and, when that operation
succeeds, returns a success result — but it inserts or merges nothing: the
entire client state, in particular the orders map, is unchanged, so the map
is left without any record for that id. -/
theorem cancelOrder_absent_state_unchanged
    (s : ClientState) (orderId txh : String)
    (hw : s.wallet.isNone = false)
    (he : isEvmNetwork s.network = true)
    (ho : mapLookup s.orders orderId = none) :
    cancelOrder s orderId (.success txh) =
      (s, .ok (some { success := true, orderId := orderId,
                      txHash := some txh })) := by
  simp [cancelOrder, hw, he, ho]

/-- Witness for `cancelOrder_absent_state_unchanged` at the concrete state
of the counterexample. -/
theorem cancelOrder_absent_state_unchanged_witness :
    cancelOrder scenarioState "77" (.success "0xh") =
      (scenarioState,
        .ok (some { success := true, orderId := "77",
                    txHash := some "0xh" })) :=
  cancelOrder_absent_state_unchanged scenarioState "77" "0xh" (by decide)
    (by decide) (by decide)

/-- Claim C8.  `fetchMarkets` returns `[]` on any transport failure;
`fetchBalances`, `fetchPositions` and `fetchOpenOrders` return `[]` on any
transport failure of their (EVM) chain reads; and the latter three return
`[]` outright whenever no wallet is bound — none of them propagates an
error, so one category's failure cannot abort bootstrap of the others. -/
theorem fetch_degrades_to_empty
    (s : ClientState) (msg : String) (rb : FetchOutcome RawBalance)
    (rp : FetchOutcome RawPosition) (ro : FetchOutcome RawOrder) :
    ((fetchMarkets s (.failure msg)).2 = [] ∧
      (isEvmNetwork s.network = true →
        (fetchBalances s (.failure msg)).2 = [] ∧
        (fetchPositions s (.failure msg)).2 = [] ∧
        (fetchOpenOrders s (.failure msg)).2 = [])) ∧
    (s.wallet = none →
      (fetchBalances s rb).2 = [] ∧
      (fetchPositions s rp).2 = [] ∧
      (fetchOpenOrders s ro).2 = []) := by
  refine ⟨⟨rfl, ?_⟩, ?_⟩
  · intro he
    by_cases hw : s.wallet.isNone <;>
      simp [fetchBalances, fetchPositions, fetchOpenOrders, hw, he]
  · intro hw
    simp [fetchBalances, fetchPositions, fetchOpenOrders, hw]

/-- Witness for `fetch_degrades_to_empty`: the EVM scenario state with a
transport failure, and a wallet-less state with successful reads. -/
theorem fetch_degrades_to_empty_witness :
    ((fetchBalances scenarioState (.failure "timeout")).2 = [] ∧
      (fetchPositions scenarioState (.failure "timeout")).2 = [] ∧
      (fetchOpenOrders scenarioState (.failure "timeout")).2 = []) ∧
    ((fetchBalances { scenarioState with wallet := none }
        (.success [{ token := "USDC", free := 1, locked := 0,
                     total := 1 }])).2 = [] ∧
      (fetchPositions { scenarioState with wallet := none }
        (.success [])).2 = [] ∧
      (fetchOpenOrders { scenarioState with wallet := none }
        (.success [])).2 = []) :=
  ⟨(fetch_degrades_to_empty scenarioState "timeout"
      (.failure "timeout") (.failure "timeout") (.failure "timeout")).1.2
      (by decide),
    (fetch_degrades_to_empty { scenarioState with wallet := none } "x"
      (.success [{ token := "USDC", free := 1, locked := 0, total := 1 }])
      (.success []) (.success [])).2 rfl⟩

/-- Claim C10.  A successful `cancelOrder` on an id present in the local
orders map rewrites that entry to the same record with only `status` set
to `canceled` (market, side, type, price, amount, filled, timestamp and
txHash untouched), leaves every other orders entry unchanged, and leaves
the positions, balances and markets maps untouched. -/
theorem cancelOrder_present_frame
    (s : ClientState) (orderId txh : String) (old : Order)
    (hw : s.wallet.isNone = false)
    (he : isEvmNetwork s.network = true)
    (ho : mapLookup s.orders orderId = some old) :
    mapLookup (cancelOrder s orderId (.success txh)).1.orders orderId =
      some { old with status := some "canceled" } ∧
    (∀ k, k ≠ orderId →
      mapLookup (cancelOrder s orderId (.success txh)).1.orders k =
        mapLookup s.orders k) ∧
    (cancelOrder s orderId (.success txh)).1.positions = s.positions ∧
    (cancelOrder s orderId (.success txh)).1.balances = s.balances ∧
    (cancelOrder s orderId (.success txh)).1.markets = s.markets ∧
    (cancelOrder s orderId (.success txh)).2 =
      .ok (some { success := true, orderId := orderId,
                  txHash := some txh }) := by
  refine ⟨?_, fun k hk => ?_, ?_, ?_, ?_, ?_⟩
  · simp [cancelOrder, hw, he, ho, mapLookup_set_self]
  · simp [cancelOrder, hw, he, ho, mapLookup_set_ne _ _ _ _ hk]
  · simp [cancelOrder, hw, he, ho]
  · simp [cancelOrder, hw, he, ho]
  · simp [cancelOrder, hw, he, ho]
  · simp [cancelOrder, hw, he, ho]

/-- Witness for `cancelOrder_present_frame`: cancelling the single stored
order `42` leaves everything but its status intact. -/
theorem cancelOrder_present_frame_witness :
    mapLookup
        (cancelOrder
          { scenarioState with
            orders := [("42",
              { id := "42", market := some "ETH-USDC", side := some "buy",
                type := some "limit", price := some "1720.50",
                amount := some "1.5", filled := some "0",
                status := some "open", timestamp := some 1700000000001,
                txHash := some "0xabc", sequence := none })] }
          "42" (.success "0xdef")).1.orders "42" =
      some { id := "42", market := some "ETH-USDC", side := some "buy",
             type := some "limit", price := some "1720.50",
             amount := some "1.5", filled := some "0",
             status := some "canceled", timestamp := some 1700000000001,
             txHash := some "0xabc", sequence := none } :=
  (cancelOrder_present_frame
    { scenarioState with
      orders := [("42",
        { id := "42", market := some "ETH-USDC", side := some "buy",
          type := some "limit", price := some "1720.50",
          amount := some "1.5", filled := some "0",
          status := some "open", timestamp := some 1700000000001,
          txHash := some "0xabc", sequence := none })] }
    "42" "0xdef"
    { id := "42", market := some "ETH-USDC", side := some "buy",
      type := some "limit", price := some "1720.50",
      amount := some "1.5", filled := some "0",
      status := some "open", timestamp := some 1700000000001,
      txHash := some "0xabc", sequence := none }
    (by decide) (by decide) (by decide)).1
